import Mathlib

/-!
Verification development for the hyperlight-wasm repository.

This file gives a shallow embedding, in Lean 4, of the host-side sandbox
lifecycle (`sandbox_builder.rs`, `proto_wasm_sandbox.rs`, `wasm_sandbox.rs`,
`loaded_wasm_sandbox.rs`) and the guest-side wasm-engine shim
(`marshal.rs`, `hostfuncs.rs`, `module.rs`, `platform.rs`), together with
theorems settling the specification claims about that code.

Machine integers are modelled as `Int`/`Nat` with explicit two's-complement
casts where the Rust code casts; floats are carried as their bit patterns
(the marshalling code only ever moves the bits via `to_bits`/`from_bits`).
Guest linear memory and the module's exported `malloc`/`free`/`memory`
are external to the shim: they are modelled by an oracle (`GuestExports`)
plus an event log recording every `malloc`, `free`, `write` and `read`
the shim performs, which is exactly the interface the Rust code sees
through `get_export`.
-/

namespace HyperlightWasm

/-! ## Wire-level tagged value ADT (hyperlight_common flatbuffer wrappers) -/

/-- `ParameterType` from hyperlight_common, as used by `marshal.rs` and
`hostfuncs.rs`. -/
inductive ParameterType where
  | int
  | uint
  | long
  | ulong
  | bool
  | float
  | double
  | string
  | vecBytes
deriving DecidableEq, Repr

/-- `ParameterValue` from hyperlight_common.  Strings are byte lists
(Rust `String` content), floats are bit patterns. -/
inductive ParameterValue where
  | int (i : Int)
  | uint (u : Nat)
  | long (l : Int)
  | ulong (u : Nat)
  | bool (b : Bool)
  | float (bits : Nat)
  | double (bits : Nat)
  | string (s : List Nat)
  | vecBytes (b : List Nat)
deriving DecidableEq, Repr

/-- `ReturnType` from hyperlight_common. -/
inductive ReturnType where
  | int
  | uint
  | long
  | ulong
  | bool
  | float
  | double
  | string
  | vecBytes
  | void
deriving DecidableEq, Repr

/-- `ReturnValue` from hyperlight_common. -/
inductive ReturnValue where
  | int (i : Int)
  | uint (u : Nat)
  | long (l : Int)
  | ulong (u : Nat)
  | bool (b : Bool)
  | float (bits : Nat)
  | double (bits : Nat)
  | string (s : List Nat)
  | vecBytes (b : List Nat)
  | void
deriving DecidableEq, Repr

/-! ## Engine-level (wasmtime) value types -/

/-- `wasmtime::ValType`, restricted to the cases produced by
`hostfuncs::hostfunc_type`. -/
inductive ValType where
  | i32
  | i64
  | f32
  | f64
deriving DecidableEq, Repr

/-- `wasmtime::Val`.  `I32`/`I64` carry the signed integer value;
`F32`/`F64` carry raw bit patterns (as the real `Val` does). -/
inductive Val where
  | I32 (i : Int)
  | I64 (i : Int)
  | F32 (bits : Nat)
  | F64 (bits : Nat)
deriving DecidableEq, Repr

/-! ## Two's-complement casts used by the Rust code -/

/-- Rust `u as i32` for a `u32` value `u`. -/
def i32OfU32 (u : Nat) : Int :=
  if u % 4294967296 < 2147483648 then (u % 4294967296 : Nat)
  else (u % 4294967296 : Int) - 4294967296

/-- Rust `i as u32` for an `i32` value `i`. -/
def u32OfI32 (i : Int) : Nat :=
  ((i % 4294967296 + 4294967296) % 4294967296).toNat

/-- Rust `u as i64` for a `u64` value `u`. -/
def i64OfU64 (u : Nat) : Int :=
  if u % 18446744073709551616 < 9223372036854775808 then (u % 18446744073709551616 : Nat)
  else (u % 18446744073709551616 : Int) - 18446744073709551616

/-- Rust `i as u64` for an `i64` value `i`. -/
def u64OfI64 (i : Int) : Nat :=
  ((i % 18446744073709551616 + 18446744073709551616) % 18446744073709551616).toNat

/-- Rust `i as usize` for an `i32` value `i`, on the 64-bit guest
(sign-extends, then reinterprets as unsigned). -/
def usizeOfI32 (i : Int) : Nat := u64OfI64 i

/-! ## platform.rs: wasmtime embedding callbacks -/

/-- `wasmtime_mprotect` from `platform.rs`: permissions are not enforced;
the call merely accepts flag values 1 (R), 3 (RW) and 5 (RX) and rejects
everything else with -1.  `ptr` and `size` are ignored. -/
def wasmtime_mprotect (_ptr : Nat) (_size : Nat) (prot_flags : Nat) : Int :=
  if prot_flags = 1 ∨ prot_flags = 3 ∨ prot_flags = 5 then 0 else -1

/-! ## sandbox_builder.rs: configuration floors and setters -/

/-- `MIN_STACK_SIZE` from `sandbox_builder.rs`. -/
def MIN_STACK_SIZE : Nat := 64 * 1024

/-- `MIN_INPUT_DATA_SIZE` from `sandbox_builder.rs`. -/
def MIN_INPUT_DATA_SIZE : Nat := 192 * 1024

/-- `MIN_HEAP_SIZE` from `sandbox_builder.rs`. -/
def MIN_HEAP_SIZE : Nat := 1024 * 1024

/-- `MIN_GUEST_ERROR_BUFFER_SIZE` from `sandbox_builder.rs`. -/
def MIN_GUEST_ERROR_BUFFER_SIZE : Nat := 1024

/-- The size-related fields of `hyperlight_host::SandboxConfiguration`
that the builder touches.  The configuration type itself lives in the
hyperlight_host dependency; only its setters are called from this repo,
so it is modelled as a plain record of the stored values. -/
structure SandboxConfiguration where
  input_data_size : Nat
  output_data_size : Nat
  stack_size : Nat
  heap_size : Nat
  guest_error_buffer_size : Nat
deriving DecidableEq, Repr

/-- `SandboxBuilder` state (the `config` field; the run options and host
print closure do not interact with the size floors). -/
structure SandboxBuilder where
  config : SandboxConfiguration
deriving DecidableEq, Repr

namespace SandboxBuilder

/-- `SandboxBuilder::new`: starts from the hyperlight_host default
configuration `d` (external to this repo, hence a parameter) and sets the
input-data size and heap size to their floors.  The stack size and guest
error buffer size are NOT touched by `new`. -/
def new (d : SandboxConfiguration) : SandboxBuilder :=
  { config := { d with
      input_data_size := MIN_INPUT_DATA_SIZE
      heap_size := MIN_HEAP_SIZE } }

/-- `SandboxBuilder::with_guest_error_buffer_size`: when the requested
value exceeds the floor, the code calls
`set_guest_error_buffer_size(MIN_GUEST_ERROR_BUFFER_SIZE)` — it stores the
floor constant, not the requested value; otherwise it leaves the
configuration untouched. -/
def with_guest_error_buffer_size (b : SandboxBuilder) (n : Nat) : SandboxBuilder :=
  if n > MIN_GUEST_ERROR_BUFFER_SIZE then
    { b with config := { b.config with guest_error_buffer_size := MIN_GUEST_ERROR_BUFFER_SIZE } }
  else b

/-- `SandboxBuilder::with_guest_output_buffer_size`: stored unconditionally. -/
def with_guest_output_buffer_size (b : SandboxBuilder) (n : Nat) : SandboxBuilder :=
  { b with config := { b.config with output_data_size := n } }

/-- `SandboxBuilder::with_guest_input_buffer_size`: stored only when above
the floor. -/
def with_guest_input_buffer_size (b : SandboxBuilder) (n : Nat) : SandboxBuilder :=
  if n > MIN_INPUT_DATA_SIZE then
    { b with config := { b.config with input_data_size := n } }
  else b

/-- `SandboxBuilder::with_guest_stack_size`: stored only when above the
floor. -/
def with_guest_stack_size (b : SandboxBuilder) (n : Nat) : SandboxBuilder :=
  if n > MIN_STACK_SIZE then
    { b with config := { b.config with stack_size := n } }
  else b

/-- `SandboxBuilder::with_guest_heap_size`: stored only when above the
floor. -/
def with_guest_heap_size (b : SandboxBuilder) (n : Nat) : SandboxBuilder :=
  if n > MIN_HEAP_SIZE then
    { b with config := { b.config with heap_size := n } }
  else b

end SandboxBuilder

/-! ## marshal.rs / hostfuncs.rs: the guest-side marshaller

The marshaller talks to the instantiated wasm module only through its
exports `malloc`, `free` and `memory` (looked up via `get_export`).  Those
exports belong to the loaded module, not to this repository, so they are
modelled by an oracle `GuestExports` giving the byte content of guest
linear memory and the addresses `malloc` hands out, plus an event log
(`MemEvent`) recording each export call the shim makes, in order. -/

/-- Oracle for the wasm module's exports: `byteAt a` is the byte of guest
linear memory at address `a` (reads are truncated to a byte, as
`memory.read` yields `u8`); `mallocRet k n` is the address returned by the
`k`-th `malloc` call when asked for `n` bytes. -/
structure GuestExports where
  byteAt : Int → Nat
  mallocRet : Nat → Nat → Int

/-- One call made by the shim against the module's exports. -/
inductive MemEvent where
  | mallocEv (size : Nat) (ret : Int)
  | freeEv (addr : Int)
  | writeEv (addr : Int) (bytes : List Nat)
  | readEv (addr : Int) (len : Nat)
deriving DecidableEq, Repr

/-- Mutable shim state: the number of `malloc` calls made so far (to index
the oracle), the event log, and the `RETURN_VALUE_ALLOCATIONS` list from
`marshal.rs`. -/
structure MarshalSt where
  nMallocs : Nat
  events : List MemEvent
  allocs : List Int
deriving Repr

/-- Shim call to the module's exported `malloc`. -/
def mallocCall (g : GuestExports) (st : MarshalSt) (len : Nat) : Int × MarshalSt :=
  let a := g.mallocRet st.nMallocs len
  (a, { st with
          nMallocs := st.nMallocs + 1
          events := st.events ++ [MemEvent.mallocEv len a] })

/-- Shim call to the module's exported `free`. -/
def freeCall (_g : GuestExports) (st : MarshalSt) (addr : Int) : MarshalSt :=
  { st with events := st.events ++ [MemEvent.freeEv addr] }

/-- Shim write into the module's exported `memory`. -/
def writeCall (st : MarshalSt) (addr : Int) (bytes : List Nat) : MarshalSt :=
  { st with events := st.events ++ [MemEvent.writeEv addr bytes] }

/-- The bytes of guest memory at `addr ..< addr+len`. -/
def readBytes (g : GuestExports) (addr : Int) (len : Nat) : List Nat :=
  (List.range len).map fun k => g.byteAt (addr + k) % 256

/-- Shim read from the module's exported `memory`. -/
def readCall (g : GuestExports) (st : MarshalSt) (addr : Int) (len : Nat) :
    List Nat × MarshalSt :=
  (readBytes g addr len, { st with events := st.events ++ [MemEvent.readEv addr len] })

/-- `marshal::track_return_value_allocation`: push onto
`RETURN_VALUE_ALLOCATIONS`. -/
def track_return_value_allocation (st : MarshalSt) (addr : Int) : MarshalSt :=
  { st with allocs := st.allocs ++ [addr] }

/-- `marshal::free_return_value_allocations`: drain the list front to
back, calling the module's `free` on each address. -/
def free_return_value_allocations (g : GuestExports) (st : MarshalSt) : MarshalSt :=
  let st' := st.allocs.foldl (freeCall g) st
  { st' with allocs := [] }

/-- `marshal::read_cstr`'s byte loop: scan guest memory from `addr` until
a NUL byte, collecting the bytes.  The Rust loop has no bound; `fuel`
bounds the scan, `none` meaning the loop would have run past the bound. -/
def read_cstr_go (g : GuestExports) : Nat → Int → List Nat → Option (List Nat)
  | 0, _, _ => none
  | fuel + 1, addr, acc =>
    let b := g.byteAt addr % 256
    if b = 0 then some acc.reverse
    else read_cstr_go g fuel (addr + 1) (b :: acc)

/-- `marshal::read_cstr`. -/
def read_cstr (g : GuestExports) (fuel : Nat) (addr : Int) : Option (List Nat) :=
  read_cstr_go g fuel addr []

/-- `u32::from_le_bytes` on a 4-byte list. -/
def u32FromLEBytes (bs : List Nat) : Nat :=
  bs.reverse.foldl (fun acc b => acc * 256 + b % 256) 0

/-- `i32::from_le_bytes` on a 4-byte list. -/
def i32FromLEBytes (bs : List Nat) : Int :=
  i32OfU32 (u32FromLEBytes bs)

/-- Result of `get_flatbuffer_result::<T>(v)`: the flatbuffer encoding is
opaque; what matters is which typed value was encoded. -/
inductive FbResult where
  | int (i : Int)
  | uint (u : Nat)
  | long (l : Int)
  | ulong (u : Nat)
  | float (bits : Nat)
  | double (bits : Nat)
  | str (s : List Nat)
  | bytes (b : List Nat)
  | unit
deriving DecidableEq, Repr

/-- `marshal::hl_param_to_val`: hyperlight parameter value to wasmtime
value, for guest-function calls.  String/VecBytes parameters are
allocated in the guest via its `malloc` and written; a string gains a NUL
terminator (`CString::new` fails on an interior NUL). -/
def hl_param_to_val (g : GuestExports) (st : MarshalSt) (param : ParameterValue) :
    Except String (Val × MarshalSt) :=
  match param with
  | .int i => .ok (.I32 i, st)
  | .uint u => .ok (.I32 (i32OfU32 u), st)
  | .long l => .ok (.I64 l, st)
  | .ulong u => .ok (.I64 (i64OfU64 u), st)
  | .bool b => .ok (.I32 (if b then 1 else 0), st)
  | .float f => .ok (.F32 f, st)
  | .double f => .ok (.F64 f, st)
  | .string s =>
    if 0 ∈ s then .error "CString::new failed: interior NUL"
    else
      let (addr, st) := mallocCall g st (s.length + 1)
      let st := writeCall st addr (s ++ [0])
      .ok (.I32 addr, st)
  | .vecBytes b =>
    let (addr, st) := mallocCall g st b.length
    let st := writeCall st addr b
    .ok (.I32 addr, st)

/-- `marshal::val_to_hl_result`: decode the wasm return values of a guest
function into a flatbuffer-encoded hyperlight result.  String/VecBytes
returns are pointers into guest memory; they are recorded in
`RETURN_VALUE_ALLOCATIONS` and then read out (for VecBytes: a 4-byte
little-endian length, then the payload at `ret + 4`).  A `Bool` return
type has no arm in the source match and falls into the error case. -/
def val_to_hl_result (g : GuestExports) (fuel : Nat) (st : MarshalSt)
    (rt : ReturnType) (rvs : List Val) : Except String (FbResult × MarshalSt) :=
  if rt = .void then .ok (.unit, st)
  else
    match rvs.head? with
    | none => .error "return value buffer empty"
    | some v =>
      match rt, v with
      | .int, .I32 i => .ok (.int i, st)
      | .uint, .I32 u => .ok (.uint (u32OfI32 u), st)
      | .long, .I64 l => .ok (.long l, st)
      | .ulong, .I64 u => .ok (.ulong (u64OfI64 u), st)
      | .float, .F32 f => .ok (.float f, st)
      | .double, .F64 f => .ok (.double f, st)
      | .string, .I32 p =>
        let st := track_return_value_allocation st p
        match read_cstr g fuel p with
        | none => .error "unterminated c string"
        | some s => .ok (.str s, st)
      | .vecBytes, .I32 ret =>
        let st := track_return_value_allocation st ret
        let (size_bytes, st) := readCall g st ret 4
        let size := i32FromLEBytes size_bytes
        let (bytes, st) := readCall g st (ret + 4) (usizeOfI32 size)
        .ok (.bytes bytes, st)
      | _, _ => .error "return type combination unsupported"

/-- `marshal::val_to_hl_param`: one step of decoding engine-level host
function arguments into hyperlight parameter values.  State: the engine
arguments not yet consumed and the saved vector length (`last_vec_len`).
A pending vector length is consumed by an `Int` parameter type without
touching the engine arguments; a `VecBytes` consumes two engine
arguments, pointer then length.  Rust panics are modelled as errors. -/
def val_to_hl_param (g : GuestExports) (fuel : Nat) (st : MarshalSt)
    (ps : List Val) (lastVecLen : Option Nat) (pt : ParameterType) :
    Except String (ParameterValue × List Val × Option Nat × MarshalSt) :=
  match lastVecLen with
  | some l =>
    if pt = .int then .ok (.int (i32OfU32 l), ps, none, st)
    else .error "Host function details missing expected vector buffer length"
  | none =>
    match ps with
    | [] => .error "Host function call missing parameter"
    | v :: rest =>
      match pt, v with
      | .int, .I32 i => .ok (.int i, rest, none, st)
      | .uint, .I32 u => .ok (.uint (u32OfI32 u), rest, none, st)
      | .long, .I64 l => .ok (.long l, rest, none, st)
      | .ulong, .I64 u => .ok (.ulong (u64OfI64 u), rest, none, st)
      | .bool, .I32 b => .ok (.bool (b = 0), rest, none, st)
      | .float, .F32 f => .ok (.float f, rest, none, st)
      | .double, .F64 f => .ok (.double f, rest, none, st)
      | .string, .I32 p =>
        match read_cstr g fuel p with
        | none => .error "unterminated c string"
        | some s => .ok (.string s, rest, none, st)
      | .vecBytes, .I32 p =>
        match rest with
        | .I32 l :: rest2 =>
          let (bytes, st) := readCall g st p (usizeOfI32 l)
          .ok (.vecBytes bytes, rest2, some (u32OfI32 l), st)
        | _ => .error "Host function call missing vecbytes length parameter"
      | _, _ => .error "Host function parameter type combination unsupported"

/-- `marshal::hl_return_to_val`: host-function return value to wasmtime
value, handed back to the guest.  A VecBytes return is `malloc`ed in the
guest at the payload's exact length and the payload alone is written;
the produced engine value is a bare `I32` pointer. -/
def hl_return_to_val (g : GuestExports) (st : MarshalSt) (rv : ReturnValue) :
    Except String (Val × MarshalSt) :=
  match rv with
  | .int i => .ok (.I32 i, st)
  | .uint u => .ok (.I32 (i32OfU32 u), st)
  | .long l => .ok (.I64 l, st)
  | .ulong u => .ok (.I64 (i64OfU64 u), st)
  | .bool b => .ok (.I32 (if b then 1 else 0), st)
  | .float f => .ok (.F32 f, st)
  | .double f => .ok (.F64 f, st)
  | .string s =>
    if 0 ∈ s then .error "CString::new failed: interior NUL"
    else
      let (addr, st) := mallocCall g st (s.length + 1)
      let st := writeCall st addr (s ++ [0])
      .ok (.I32 addr, st)
  | .vecBytes b =>
    let (addr, st) := mallocCall g st b.length
    let st := writeCall st addr b
    .ok (.I32 addr, st)
  | .void => .ok (.I32 0, st)

/-! ## hostfuncs.rs: engine function types and host-call marshalling -/

/-- The `ValType` pushed by `hostfuncs::hostfunc_type` for each
hyperlight parameter type. -/
def hostfunc_param_valtype : ParameterType → ValType
  | .int => .i32
  | .uint => .i32
  | .long => .i64
  | .ulong => .i64
  | .bool => .i32
  | .float => .f32
  | .double => .f64
  | .string => .i32
  | .vecBytes => .i32

/-- The parameter loop of `hostfuncs::hostfunc_type`.  `lastWasVec` is set
when a `VecBytes` is seen and — exactly as in the source — never reset;
the loop errors when the current parameter is not `Int` while the flag is
set. -/
def hostfunc_params_go : List ParameterType → Bool → Except String (List ValType)
  | [], _ => .ok []
  | p :: rest, lastWasVec =>
    if lastWasVec ∧ p ≠ .int then
      .error "Host function vector parameter missing length"
    else
      match hostfunc_params_go rest (lastWasVec ∨ p = .vecBytes) with
      | .error e => .error e
      | .ok tail => .ok (hostfunc_param_valtype p :: tail)

/-- The result types pushed by `hostfuncs::hostfunc_type`: note that a
`VecBytes` return is declared as a single `i64` (the source comment calls
it a packed pointer+length for compatibility with an old host). -/
def hostfunc_results : ReturnType → List ValType
  | .void => []
  | .int => [.i32]
  | .uint => [.i32]
  | .long => [.i64]
  | .ulong => [.i64]
  | .bool => [.i32]
  | .float => [.f32]
  | .double => [.f64]
  | .string => [.i32]
  | .vecBytes => [.i64]

/-- `hostfuncs::hostfunc_type`: the engine `FuncType` (parameter and
result `ValType` lists) built for a host-function descriptor. -/
def hostfunc_type (paramTypes : List ParameterType) (rt : ReturnType) :
    Except String (List ValType × List ValType) :=
  match hostfunc_params_go paramTypes false with
  | .error e => .error e
  | .ok ps => .ok (ps, hostfunc_results rt)

/-- The `scan`/`collect` in `hostfuncs::call`: decode all engine-level
arguments of a host call into hyperlight parameter values, threading the
`val_to_hl_param` state through the declared parameter types. -/
def collect_hl_params (g : GuestExports) (fuel : Nat) (st : MarshalSt) :
    List ParameterType → List Val → Option Nat →
    Except String (List ParameterValue × MarshalSt)
  | [], _, _ => .ok ([], st)
  | pt :: pts, ps, lastVecLen =>
    match val_to_hl_param g fuel st ps lastVecLen pt with
    | .error e => .error e
    | .ok (pv, ps', lastVecLen', st') =>
      match collect_hl_params g fuel st' pts ps' lastVecLen' with
      | .error e => .error e
      | .ok (pvs, st'') => .ok (pv :: pvs, st'')

/-! ## module.rs: guest_dispatch_function -/

/-- `FunctionCall` from hyperlight_common: the decoded parameter frame. -/
structure FunctionCall where
  function_name : String
  parameters : List ParameterValue
  expected_return_type : ReturnType

/-- The parameter loop of `module::guest_dispatch_function`. -/
def hl_params_to_vals (g : GuestExports) (st : MarshalSt) :
    List ParameterValue → Except String (List Val × MarshalSt)
  | [] => .ok ([], st)
  | p :: ps =>
    match hl_param_to_val g st p with
    | .error e => .error e
    | .ok (v, st') =>
      match hl_params_to_vals g st' ps with
      | .error e => .error e
      | .ok (vs, st'') => .ok (v :: vs, st'')

/-- `module::guest_dispatch_function`: free the previous call's tracked
return allocations, marshal the parameters, run the wasm export (the
instance's function table is abstracted as `wasmCall`, which may trap),
and decode the result.  The store/instance lookups are assumed present
(a loaded module), as on every reachable call of the source function. -/
def guest_dispatch_function (g : GuestExports) (fuel : Nat)
    (wasmCall : String → List Val → Except String (List Val))
    (fc : FunctionCall) (st : MarshalSt) : Except String (FbResult × MarshalSt) :=
  match hl_params_to_vals g (free_return_value_allocations g st) fc.parameters with
  | .error e => .error e
  | .ok (w_params, st2) =>
    match wasmCall fc.function_name w_params with
    | .error e => .error e
    | .ok results => val_to_hl_result g fuel st2 fc.expected_return_type results

/-! ## The host-side sandbox lifecycle

The wrappers in `wasm_sandbox.rs` / `loaded_wasm_sandbox.rs` delegate the
actual VM work to `hyperlight_host::MultiUseSandbox`, a dependency whose
code is not part of this repository; its call/snapshot/restore/poison
semantics are modelled from the spec below, and the wrappers themselves
are embedded from the source. -/

/-- The hyperlight error kinds relevant to the lifecycle claims. -/
inductive HlError where
  | PoisonedSandbox
  | ExecutionCanceledByHost
  | GuestAborted
  | MemoryFault
  | StackExhausted
  | GuestError (msg : String)
deriving DecidableEq, Repr

/-- How a single vCPU run of the guest ends: a normal return carrying the
decoded value and the guest memory it leaves behind, or one of the
abnormal exits. -/
inductive GuestRun where
  | normal (v : ReturnValue) (newMem : Nat)
  | interrupted
  | guestPanic
  | memoryFault
  | stackHeapExhausted
deriving DecidableEq, Repr

/-- A snapshot: the captured guest memory (abstracted to its content
identifier). -/
abbrev Snapshot := Nat

/-- Modelled from the spec: `hyperlight_host::MultiUseSandbox` is a
dependency, not code under src/; the spec describes it as guest memory
plus a `poisoned` flag. -/
structure MultiUseSandbox where
  mem : Nat
  poisoned : Bool
deriving DecidableEq, Repr

namespace MultiUseSandbox

/-- Modelled from the spec: `MultiUseSandbox::call`.  A call on a
poisoned sandbox fails immediately with `PoisonedSandbox`; an abnormal
exit (interrupt, guest panic, memory fault, stack/heap exhaustion)
returns the corresponding original error and sets `poisoned`; a normal
exit returns the value. -/
def call (s : MultiUseSandbox) (run : GuestRun) :
    Except HlError ReturnValue × MultiUseSandbox :=
  if s.poisoned then (.error .PoisonedSandbox, s)
  else
    match run with
    | .normal v m => (.ok v, { s with mem := m })
    | .interrupted => (.error .ExecutionCanceledByHost, { s with poisoned := true })
    | .guestPanic => (.error .GuestAborted, { s with poisoned := true })
    | .memoryFault => (.error .MemoryFault, { s with poisoned := true })
    | .stackHeapExhausted => (.error .StackExhausted, { s with poisoned := true })

/-- Modelled from the spec: `MultiUseSandbox::snapshot` fails with
`PoisonedSandbox` when poisoned, else captures guest memory. -/
def snapshot (s : MultiUseSandbox) : Except HlError Snapshot :=
  if s.poisoned then .error .PoisonedSandbox else .ok s.mem

/-- Modelled from the spec: `MultiUseSandbox::restore` overwrites guest
memory from the snapshot and unconditionally clears `poisoned`. -/
def restore (_s : MultiUseSandbox) (snap : Snapshot) : MultiUseSandbox :=
  { mem := snap, poisoned := false }

end MultiUseSandbox

/-- `WasmSandbox` from `wasm_sandbox.rs`: the inner VM, the retained
runtime snapshot, and the `needs_restore` flag set when the value was
produced by unloading a module. -/
structure WasmSandbox where
  inner : Option MultiUseSandbox
  snapshot : Option Snapshot
  needs_restore : Bool
deriving DecidableEq, Repr

/-- `LoadedWasmSandbox` from `loaded_wasm_sandbox.rs`. -/
structure LoadedWasmSandbox where
  inner : Option MultiUseSandbox
  runtime_snapshot : Option Snapshot
deriving DecidableEq, Repr

namespace WasmSandbox

/-- `WasmSandbox::new`: takes a fresh snapshot of the inner sandbox and
retains it; `needs_restore` starts false. -/
def new (inner : MultiUseSandbox) : Except HlError WasmSandbox :=
  match inner.snapshot with
  | .error e => .error e
  | .ok snap => .ok { inner := some inner, snapshot := some snap, needs_restore := false }

/-- `WasmSandbox::new_from_loaded`: reuses the snapshot already held by
the `LoadedWasmSandbox`; no restore is performed here, `needs_restore` is
set instead. -/
def new_from_loaded (loaded : MultiUseSandbox) (snapshot : Snapshot) : WasmSandbox :=
  { inner := some loaded, snapshot := some snapshot, needs_restore := true }

/-- `WasmSandbox::restore_if_needed`: restore the retained snapshot into
the inner sandbox when `needs_restore` is set (then clear the flag).
Both call sites in the source discard the returned `Result`, so only the
state effect is modelled; the error paths (missing inner or snapshot)
leave the state unchanged. -/
def restore_if_needed (s : WasmSandbox) : WasmSandbox :=
  if s.needs_restore then
    match s.inner, s.snapshot with
    | some inner, some snap =>
      { s with inner := some (inner.restore snap), needs_restore := false }
    | _, _ => s
  else s

/-- `WasmSandbox::finalize_module_load`. -/
def finalize_module_load (s : WasmSandbox) : Except HlError LoadedWasmSandbox :=
  match s.inner, s.snapshot with
  | some sandbox, some snap =>
    .ok { inner := some sandbox, runtime_snapshot := some snap }
  | _, _ => .error (.GuestError "WasmSandbox/snapshot is None, cannot load module")

end WasmSandbox

/-- `load_wasm_module_from_bytes` (free function in `wasm_sandbox.rs`):
issue the typed guest call `LoadWasmModule` and fail when its `i32`
result is non-zero.  The returned log records the guest call issued and
the sandbox state it was issued on. -/
def load_wasm_module_from_bytes (inner : MultiUseSandbox) (run : GuestRun) :
    Except HlError MultiUseSandbox × List (String × MultiUseSandbox) :=
  let (r, inner') := inner.call run
  (match r with
   | .error e => .error e
   | .ok (ReturnValue.int res) =>
     if res ≠ 0 then .error (.GuestError "LoadWasmModule Failed") else .ok inner'
   | .ok _ => .error (.GuestError "unexpected LoadWasmModule return type"),
   [("LoadWasmModule", inner)])

namespace WasmSandbox

/-- `WasmSandbox::load_module`: restore the retained snapshot if pending,
then either map the file and call `LoadWasmModulePhys`, or fall back to
reading the bytes and calling `LoadWasmModule`.  `mapOk` abstracts
whether `map_file_cow` succeeded; `run` is the guest's behaviour on the
load call.  The log records each guest call with the sandbox state it was
issued on. -/
def load_module (s0 : WasmSandbox) (mapOk : Bool) (run : GuestRun) :
    Except HlError LoadedWasmSandbox × List (String × MultiUseSandbox) :=
  let s := s0.restore_if_needed
  match s.inner with
  | none => (.error (.GuestError "WasmSandbox is None"), [])
  | some inner =>
    if mapOk then
      let (r, inner') := inner.call run
      match r with
      | .error e => (.error e, [("LoadWasmModulePhys", inner)])
      | .ok _ =>
        ({ s with inner := some inner' }.finalize_module_load,
         [("LoadWasmModulePhys", inner)])
    else
      match load_wasm_module_from_bytes inner run with
      | (.error e, log) => (.error e, log)
      | (.ok inner', log) => ({ s with inner := some inner' }.finalize_module_load, log)

/-- `WasmSandbox::load_module_by_mapping`: same shape as `load_module`
(restore first, then map the caller's region and call
`LoadWasmModulePhys`, falling back to the copy path). -/
def load_module_by_mapping (s0 : WasmSandbox) (mapOk : Bool) (run : GuestRun) :
    Except HlError LoadedWasmSandbox × List (String × MultiUseSandbox) :=
  let s := s0.restore_if_needed
  match s.inner with
  | none => (.error (.GuestError "WasmSandbox is None"), [])
  | some inner =>
    if mapOk then
      let (r, inner') := inner.call run
      match r with
      | .error e => (.error e, [("LoadWasmModulePhys", inner)])
      | .ok _ =>
        ({ s with inner := some inner' }.finalize_module_load,
         [("LoadWasmModulePhys", inner)])
    else
      match load_wasm_module_from_bytes inner run with
      | (.error e, log) => (.error e, log)
      | (.ok inner', log) => ({ s with inner := some inner' }.finalize_module_load, log)

/-- `WasmSandbox::load_module_from_buffer`: always the copy path, and —
unlike the other two load paths — without calling `restore_if_needed`
first: the `needs_restore` flag is never consulted. -/
def load_module_from_buffer (s : WasmSandbox) (run : GuestRun) :
    Except HlError LoadedWasmSandbox × List (String × MultiUseSandbox) :=
  match s.inner with
  | none => (.error (.GuestError "WasmSandbox is None"), [])
  | some inner =>
    match load_wasm_module_from_bytes inner run with
    | (.error e, log) => (.error e, log)
    | (.ok inner', log) => ({ s with inner := some inner' }.finalize_module_load, log)

end WasmSandbox

namespace LoadedWasmSandbox

/-- `LoadedWasmSandbox::call_guest_function`: delegate to the inner
`MultiUseSandbox`. -/
def call_guest_function (l : LoadedWasmSandbox) (run : GuestRun) :
    Except HlError ReturnValue × LoadedWasmSandbox :=
  match l.inner with
  | some inner =>
    let (r, inner') := inner.call run
    (r, { l with inner := some inner' })
  | none => (.error (.GuestError "No inner MultiUseSandbox to call"), l)

/-- `LoadedWasmSandbox::snapshot`. -/
def snapshot (l : LoadedWasmSandbox) : Except HlError Snapshot :=
  match l.inner with
  | some inner => inner.snapshot
  | none => .error (.GuestError "No inner MultiUseSandbox to snapshot")

/-- `LoadedWasmSandbox::restore`. -/
def restore (l : LoadedWasmSandbox) (snap : Snapshot) :
    Except HlError Unit × LoadedWasmSandbox :=
  match l.inner with
  | some inner => (.ok (), { l with inner := some (inner.restore snap) })
  | none => (.error (.GuestError "No inner MultiUseSandbox to restore"), l)

/-- `LoadedWasmSandbox::is_poisoned`. -/
def is_poisoned (l : LoadedWasmSandbox) : Except HlError Bool :=
  match l.inner with
  | some inner => .ok inner.poisoned
  | none => .error (.GuestError "No inner MultiUseSandbox to check poisoned state")

/-- `LoadedWasmSandbox::unload_module`: take the inner sandbox and the
retained snapshot and build a `WasmSandbox` via `new_from_loaded`. -/
def unload_module (l : LoadedWasmSandbox) : Except HlError WasmSandbox :=
  match l.inner with
  | none => .error (.GuestError "No inner MultiUseSandbox to unload")
  | some sandbox =>
    match l.runtime_snapshot with
    | none => .error (.GuestError "No snapshot of the WasmSandbox to unload")
    | some snap => .ok (WasmSandbox.new_from_loaded sandbox snap)

end LoadedWasmSandbox

/-! ## proto_wasm_sandbox.rs: load_runtime, and the guest side of init -/

/-- The guest call issued by `ProtoWasmSandbox::load_runtime`, from the
source: function name, expected return type, and arguments — `None`. -/
def load_runtime_init_call : String × ReturnType × Option (List ParameterValue) :=
  ("InitWasmRuntime", ReturnType.int, none)

/-- `ProtoWasmSandbox::load_runtime` after the sandbox has evolved to a
`MultiUseSandbox`: issue `InitWasmRuntime` (with no arguments), fail on a
non-`Int(0)` result, otherwise build the `WasmSandbox` (which takes and
retains a snapshot). -/
def load_runtime (mus : MultiUseSandbox) (run : GuestRun) : Except HlError WasmSandbox :=
  let (r, mus') := mus.call run
  match r with
  | .error e => .error e
  | .ok res =>
    if res ≠ ReturnValue.int 0 then .error (.GuestError "InitWasmRuntime Failed")
    else WasmSandbox.new mus'

/-- `HostFunctionDefinition` from hyperlight_common: a host-function
descriptor as stored in the host-function-details buffer. -/
structure HostFunctionDefinition where
  function_name : String
  parameter_types : List ParameterType
  return_type : ReturnType
deriving DecidableEq, Repr

/-- `GuestFunctionDefinition` (hyperlight_guest_bin): name, parameter
types, return type of a registered guest entrypoint. -/
structure GuestFunctionDefinition where
  function_name : String
  parameter_types : List ParameterType
  return_type : ReturnType
deriving DecidableEq, Repr

/-- The guest entrypoints registered by `module::hyperlight_main`,
verbatim from the source.  `InitWasmRuntime` is registered with an EMPTY
parameter list: it receives no serialized registry argument. -/
def hyperlight_main_registrations : List GuestFunctionDefinition :=
  [⟨"PrintOutput", [.string], .int⟩,
   ⟨"InitWasmRuntime", [], .int⟩,
   ⟨"LoadWasmModule", [.vecBytes, .int], .int⟩,
   ⟨"LoadWasmModulePhys", [.ulong, .ulong], .void⟩]

/-- `module::init_wasm_runtime`: reads the host-function registry from
the host-function-details buffer (`get_host_function_details`, an
argument here) and registers, for each descriptor, a wrapper in the
linker's "env" namespace with the engine type from `hostfunc_type`;
a descriptor whose type construction fails aborts initialization. -/
def init_wasm_runtime (hostfuncs : List HostFunctionDefinition) :
    Except String (List (String × String × (List ValType × List ValType))) :=
  match hostfuncs with
  | [] => .ok []
  | d :: rest =>
    match hostfunc_type d.parameter_types d.return_type with
    | .error e => .error e
    | .ok ty =>
      match init_wasm_runtime rest with
      | .error e => .error e
      | .ok entries => .ok (("env", d.function_name, ty) :: entries)

/-! ## Derived notions used by the theorems -/

/-- Whether a guest run ends abnormally. -/
def GuestRun.isAbnormal : GuestRun → Bool
  | .normal _ _ => false
  | _ => true

/-- The original error surfaced for each abnormal guest exit. -/
def abnormalError : GuestRun → HlError
  | .normal _ _ => .GuestError "not abnormal"
  | .interrupted => .ExecutionCanceledByHost
  | .guestPanic => .GuestAborted
  | .memoryFault => .MemoryFault
  | .stackHeapExhausted => .StackExhausted

/-- The guest-heap pointers that `val_to_hl_result` records for a given
return type and engine result values: exactly the pointer of a `String`
or `VecBytes` return. -/
def returnPtrs (rt : ReturnType) (rvs : List Val) : List Int :=
  match rt, rvs.head? with
  | .string, some (.I32 p) => [p]
  | .vecBytes, some (.I32 p) => [p]
  | _, _ => []

/-- A list of export-call events containing no `free` call. -/
def noFreeEv (l : List MemEvent) : Prop :=
  ∀ a, MemEvent.freeEv a ∉ l

/-! ## Claim theorems -/

/-- C9: for all `ptr` and `size` arguments, the guest shim's mprotect
callback returns success (0) if and only if the protection flags are 1
(R), 3 (RW) or 5 (RX), and returns -1 for every other flag value. -/
theorem C9_mprotect_accepts_exactly_r_rw_rx (ptr size prot : Nat) :
    (wasmtime_mprotect ptr size prot = 0 ↔ (prot = 1 ∨ prot = 3 ∨ prot = 5)) ∧
    (¬ (prot = 1 ∨ prot = 3 ∨ prot = 5) → wasmtime_mprotect ptr size prot = -1) := by
  unfold wasmtime_mprotect
  constructor
  · constructor
    · intro h
      by_contra hc
      rw [if_neg hc] at h
      exact absurd h (by decide)
    · intro h
      rw [if_pos h]
  · intro h
    rw [if_neg h]

/-- Witness for C9: concrete evaluations — flag 5 (RX) succeeds, flag 2
(W alone) fails. -/
theorem C9_witness :
    wasmtime_mprotect 4096 8192 5 = 0 ∧ wasmtime_mprotect 4096 8192 2 = -1 :=
  ⟨(C9_mprotect_accepts_exactly_r_rw_rx 4096 8192 5).1.mpr (Or.inr (Or.inr rfl)),
   (C9_mprotect_accepts_exactly_r_rw_rx 4096 8192 2).2 (by decide)⟩

/-- C3 (code bug): `with_guest_error_buffer_size` does not store a
requested value above the floor — when the argument exceeds
`MIN_GUEST_ERROR_BUFFER_SIZE` it stores the floor constant itself, and
otherwise leaves the configuration untouched; likewise
`with_guest_stack_size` below the floor leaves whatever default
hyperlight_host supplied (`SandboxBuilder::new` never sets the stack
size), rather than the documented floor.  The input/heap setters do
behave as documented. -/
theorem C3_builder_floor_divergence (d : SandboxConfiguration) :
    ((SandboxBuilder.new d).with_guest_error_buffer_size 4096).config.guest_error_buffer_size
        = MIN_GUEST_ERROR_BUFFER_SIZE ∧
    MIN_GUEST_ERROR_BUFFER_SIZE ≠ 4096 ∧
    ((SandboxBuilder.new d).with_guest_error_buffer_size 512).config.guest_error_buffer_size
        = d.guest_error_buffer_size ∧
    ((SandboxBuilder.new d).with_guest_stack_size 1024).config.stack_size = d.stack_size ∧
    ((SandboxBuilder.new d).with_guest_heap_size 512).config.heap_size = MIN_HEAP_SIZE ∧
    ((SandboxBuilder.new d).with_guest_heap_size (2 * 1024 * 1024)).config.heap_size
        = 2 * 1024 * 1024 ∧
    ((SandboxBuilder.new d).with_guest_input_buffer_size 1024).config.input_data_size
        = MIN_INPUT_DATA_SIZE ∧
    ((SandboxBuilder.new d).with_guest_input_buffer_size (256 * 1024)).config.input_data_size
        = 256 * 1024 := by
  refine ⟨?_, by decide, ?_, ?_, ?_, ?_, ?_, ?_⟩ <;>
    simp [SandboxBuilder.new, SandboxBuilder.with_guest_error_buffer_size,
      SandboxBuilder.with_guest_stack_size, SandboxBuilder.with_guest_heap_size,
      SandboxBuilder.with_guest_input_buffer_size, MIN_GUEST_ERROR_BUFFER_SIZE,
      MIN_STACK_SIZE, MIN_HEAP_SIZE, MIN_INPUT_DATA_SIZE]

/-- C5 (code bug): the widening directions map true to i32 1 and false to
i32 0 (guest-function parameters and host-function returns), but the
narrowing direction in `val_to_hl_param` tests `*b == 0` and therefore
maps engine i32 1 to `Bool(false)` and i32 0 to `Bool(true)`, inverting
every bool a guest passes to a host function. -/
theorem C5_bool_widening_ok_and_narrowing_inverted (g : GuestExports) (st : MarshalSt) :
    hl_param_to_val g st (ParameterValue.bool true) = .ok (Val.I32 1, st) ∧
    hl_param_to_val g st (ParameterValue.bool false) = .ok (Val.I32 0, st) ∧
    hl_return_to_val g st (ReturnValue.bool true) = .ok (Val.I32 1, st) ∧
    hl_return_to_val g st (ReturnValue.bool false) = .ok (Val.I32 0, st) ∧
    val_to_hl_param g 0 st [Val.I32 1] none ParameterType.bool
        = .ok (ParameterValue.bool false, [], none, st) ∧
    val_to_hl_param g 0 st [Val.I32 0] none ParameterType.bool
        = .ok (ParameterValue.bool true, [], none, st) := by
  refine ⟨rfl, rfl, rfl, rfl, ?_, ?_⟩ <;> simp [val_to_hl_param]

/-- C4 (code bug): `hostfunc_type` errors on `[VecBytes, Int, Long]`
(every VecBytes is immediately followed by Int, yet the never-reset
`last_was_vec` flag rejects the trailing Long) and accepts a lone
trailing `[VecBytes]` (no Int follows); while the call-time marshaller
handles the correctly-shaped `[VecBytes, Int]` pair by consuming the
pointer and length engine arguments for the VecBytes and replaying the
length for the Int. -/
theorem C4_hostfunc_type_divergence (g : GuestExports) (fuel : Nat) (st : MarshalSt) :
    hostfunc_type [ParameterType.vecBytes, ParameterType.int, ParameterType.long] ReturnType.int
        = .error "Host function vector parameter missing length" ∧
    hostfunc_type [ParameterType.vecBytes] ReturnType.int
        = .ok ([ValType.i32], [ValType.i32]) ∧
    collect_hl_params g fuel st [ParameterType.vecBytes, ParameterType.int]
        [Val.I32 1000, Val.I32 12] none
        = .ok ([ParameterValue.vecBytes (readBytes g 1000 12), ParameterValue.int 12],
               { st with events := st.events ++ [MemEvent.readEv 1000 12] }) := by
  refine ⟨rfl, rfl, ?_⟩
  show collect_hl_params g fuel st _ _ none = _
  simp [collect_hl_params, val_to_hl_param, readCall, usizeOfI32, u64OfI64, u32OfI32, i32OfU32]

/-- C6 (counterexample): the declared engine result type of a host
function returning VecBytes is `i64`, not the 32-bit pointer demanded by
the symmetric length-prefixed packing rule. -/
theorem C6_counterexample :
    hostfunc_type [] ReturnType.vecBytes = .ok ([], [ValType.i64]) ∧
    ValType.i64 ≠ ValType.i32 :=
  ⟨rfl, by decide⟩

/-- C6 (amended): a VecBytes returned by a guest function is decoded by
the shim as a 32-bit pointer to a buffer holding a 4-byte little-endian
length followed by the payload at `p + 4`; the rule is NOT symmetric for
host-function returns: their declared engine result type is `i64`, and
`hl_return_to_val` produces a bare `I32` pointer to a buffer `malloc`ed
at exactly the payload's length into which the payload alone is written
(no length prefix). -/
theorem C6_vecbytes_return_packing (g : GuestExports) (fuel : Nat) (st : MarshalSt)
    (p : Int) (h : u32FromLEBytes (readBytes g p 4) < 2147483648) :
    (val_to_hl_result g fuel st ReturnType.vecBytes [Val.I32 p]
      = .ok (FbResult.bytes (readBytes g (p + 4) (u32FromLEBytes (readBytes g p 4))),
             { st with
                 allocs := st.allocs ++ [p]
                 events := st.events ++
                   [MemEvent.readEv p 4,
                    MemEvent.readEv (p + 4) (u32FromLEBytes (readBytes g p 4))] })) ∧
    (u32FromLEBytes (readBytes g p 4)
      = g.byteAt p % 256 + 256 * (g.byteAt (p + 1) % 256) +
        65536 * (g.byteAt (p + 2) % 256) + 16777216 * (g.byteAt (p + 3) % 256)) ∧
    (∀ b : List Nat,
      hl_return_to_val g st (ReturnValue.vecBytes b)
        = .ok (Val.I32 (g.mallocRet st.nMallocs b.length),
               { st with
                   nMallocs := st.nMallocs + 1
                   events := st.events ++
                     [MemEvent.mallocEv b.length (g.mallocRet st.nMallocs b.length),
                      MemEvent.writeEv (g.mallocRet st.nMallocs b.length) b] })) ∧
    hostfunc_results ReturnType.vecBytes = [ValType.i64] := by
  have hsz : usizeOfI32 (i32FromLEBytes (readBytes g p 4))
      = u32FromLEBytes (readBytes g p 4) := by
    unfold i32FromLEBytes i32OfU32 usizeOfI32 u64OfI64
    rw [Nat.mod_eq_of_lt (lt_trans h (by norm_num)), if_pos h]
    set u := u32FromLEBytes (readBytes g p 4) with hu
    have h1 : ((u : Int) % 18446744073709551616 + 18446744073709551616) %
        18446744073709551616 = (u : Int) := by
      have h2 : (u : Int) % 18446744073709551616 = (u : Int) := by
        apply Int.emod_eq_of_lt (by positivity)
        exact_mod_cast lt_trans h (by norm_num)
      omega
    rw [h1, Int.toNat_natCast]
  refine ⟨?_, ?_, ?_, rfl⟩
  · simp only [val_to_hl_result, readCall, track_return_value_allocation]
    simp [hsz]
  · have hr : readBytes g p 4 =
        [g.byteAt p % 256, g.byteAt (p + 1) % 256,
         g.byteAt (p + 2) % 256, g.byteAt (p + 3) % 256] := by
      simp [readBytes, List.range_succ]
    rw [hr]
    simp only [u32FromLEBytes, List.reverse_cons, List.reverse_nil, List.nil_append,
      List.cons_append, List.foldl_cons, List.foldl_nil]
    omega
  · intro b
    simp [hl_return_to_val, mallocCall, writeCall]

/-- Concrete export oracle used by the C6 witness: memory holds length
bytes 2,1,0,0 at address 100 (little-endian 258); every other byte is 7. -/
def c6Exports : GuestExports where
  byteAt := fun a =>
    if a = 100 then 2 else if a = 101 then 1 else
    if a = 102 then 0 else if a = 103 then 0 else 7
  mallocRet := fun _ _ => 0

/-- Witness for C6: concrete evaluation of the VecBytes return decoding
against `c6Exports`. -/
theorem C6_witness :
    u32FromLEBytes (readBytes c6Exports 100 4) < 2147483648 ∧
    val_to_hl_result c6Exports 0 { nMallocs := 0, events := [], allocs := [] }
        ReturnType.vecBytes [Val.I32 100]
      = .ok (FbResult.bytes (readBytes c6Exports 104 (u32FromLEBytes (readBytes c6Exports 100 4))),
             { nMallocs := 0
               events := [MemEvent.readEv 100 4,
                          MemEvent.readEv 104 (u32FromLEBytes (readBytes c6Exports 100 4))]
               allocs := [100] }) := by
  have hlt : u32FromLEBytes (readBytes c6Exports 100 4) < 2147483648 := by
    simp [c6Exports, readBytes, List.range_succ, u32FromLEBytes]
  refine ⟨hlt, ?_⟩
  have hmain := (C6_vecbytes_return_packing c6Exports 0
    { nMallocs := 0, events := [], allocs := [] } 100 hlt).1
  simpa using hmain

/-- C7 (counterexample): `InitWasmRuntime` is registered by
`hyperlight_main` with an empty parameter list, and `load_runtime` calls
it with no arguments (`None`): the serialized registry is not passed as
an argument to the entrypoint. -/
theorem C7_counterexample :
    hyperlight_main_registrations.find?
        (fun d => d.function_name == "InitWasmRuntime")
      = some ⟨"InitWasmRuntime", [], ReturnType.int⟩ ∧
    load_runtime_init_call.2.2 = none := by
  constructor
  · rfl
  · rfl

/-- C7 (amended): `load_runtime` invokes the guest entrypoint
`InitWasmRuntime` with no arguments (the host-function registry is
conveyed through the host-function-details buffer, from which the guest's
`init_wasm_runtime` reads it and registers one "env" linker entry per
descriptor); a non-zero i32 return fails the Proto-to-Runtime transition,
and a zero return yields a Runtime sandbox retaining a fresh snapshot of
the VM state. -/
theorem C7_load_runtime_behaviour :
    (∀ (mus : MultiUseSandbox) (m : Nat) (i : Int),
      mus.poisoned = false → i ≠ 0 →
      load_runtime mus (GuestRun.normal (ReturnValue.int i) m)
        = .error (.GuestError "InitWasmRuntime Failed")) ∧
    (∀ (mus : MultiUseSandbox) (m : Nat),
      mus.poisoned = false →
      load_runtime mus (GuestRun.normal (ReturnValue.int 0) m)
        = .ok { inner := some { mem := m, poisoned := false }
                snapshot := some m
                needs_restore := false }) ∧
    (∀ (ds : List HostFunctionDefinition)
       (entries : List (String × String × (List ValType × List ValType))),
      init_wasm_runtime ds = .ok entries →
      entries.map (fun e => e.2.1) = ds.map HostFunctionDefinition.function_name ∧
      ∀ e ∈ entries, e.1 = "env") := by
  refine ⟨?_, ?_, ?_⟩
  · rintro ⟨mem, po⟩ m i hp hne
    subst hp
    simp [load_runtime, MultiUseSandbox.call, hne]
  · rintro ⟨mem, po⟩ m hp
    subst hp
    simp [load_runtime, MultiUseSandbox.call, WasmSandbox.new, MultiUseSandbox.snapshot]
  · intro ds
    induction ds with
    | nil =>
      intro entries hok
      simp only [init_wasm_runtime] at hok
      cases hok
      simp
    | cons d rest ih =>
      intro entries hok
      simp only [init_wasm_runtime] at hok
      cases hty : hostfunc_type d.parameter_types d.return_type with
      | error e => rw [hty] at hok; cases hok
      | ok ty =>
        rw [hty] at hok
        cases hrest : init_wasm_runtime rest with
        | error e => rw [hrest] at hok; cases hok
        | ok tailEntries =>
          rw [hrest] at hok
          cases hok
          have htail := ih tailEntries hrest
          refine ⟨?_, ?_⟩
          · simp [htail.1]
          · intro e he
            rcases List.mem_cons.mp he with h1 | h2
            · rw [h1]
            · exact htail.2 e h2

/-- Witness for C7: concrete evaluations — a failing init (return 1), a
succeeding init (return 0) from memory state 42, and a one-descriptor
registry producing its "env" linker entry. -/
theorem C7_witness :
    load_runtime { mem := 0, poisoned := false } (GuestRun.normal (ReturnValue.int 1) 42)
      = .error (.GuestError "InitWasmRuntime Failed") ∧
    load_runtime { mem := 0, poisoned := false } (GuestRun.normal (ReturnValue.int 0) 42)
      = .ok { inner := some { mem := 42, poisoned := false }
              snapshot := some 42
              needs_restore := false } ∧
    ([("env", "HostPrint", ([ValType.i32], [ValType.i32]))].map (fun e => e.2.1)
        = [⟨"HostPrint", [ParameterType.string], ReturnType.int⟩].map
            HostFunctionDefinition.function_name ∧
      ∀ e ∈ [("env", "HostPrint", ([ValType.i32], [ValType.i32]))], e.1 = "env") :=
  ⟨C7_load_runtime_behaviour.1 { mem := 0, poisoned := false } 42 1 rfl (by decide),
   C7_load_runtime_behaviour.2.1 { mem := 0, poisoned := false } 42 rfl,
   C7_load_runtime_behaviour.2.2 [⟨"HostPrint", [ParameterType.string], ReturnType.int⟩]
     [("env", "HostPrint", ([ValType.i32], [ValType.i32]))] rfl⟩

/-- C1: on a healthy sandbox, the call during which guest execution ends
abnormally returns the original error (which is never `PoisonedSandbox`)
and leaves the sandbox poisoned; every call on a poisoned sandbox returns
`PoisonedSandbox` and leaves it poisoned; restoring a snapshot clears the
poison. -/
theorem C1_first_error_verbatim_then_poisoned :
    (∀ (l : LoadedWasmSandbox) (mus : MultiUseSandbox) (run : GuestRun),
      l.inner = some mus → mus.poisoned = false → run.isAbnormal = true →
      (l.call_guest_function run).1 = .error (abnormalError run) ∧
      abnormalError run ≠ HlError.PoisonedSandbox ∧
      (l.call_guest_function run).2.is_poisoned = .ok true) ∧
    (∀ (l : LoadedWasmSandbox) (mus : MultiUseSandbox) (run : GuestRun),
      l.inner = some mus → mus.poisoned = true →
      (l.call_guest_function run).1 = .error HlError.PoisonedSandbox ∧
      (l.call_guest_function run).2.is_poisoned = .ok true) ∧
    (∀ (l : LoadedWasmSandbox) (mus : MultiUseSandbox) (snap : Snapshot),
      l.inner = some mus →
      ((l.restore snap).2.is_poisoned = .ok false)) := by
  refine ⟨?_, ?_, ?_⟩
  · intro l mus run hin hp hab
    cases run <;>
      simp_all [LoadedWasmSandbox.call_guest_function, LoadedWasmSandbox.is_poisoned,
        MultiUseSandbox.call, GuestRun.isAbnormal, abnormalError]
  · intro l mus run hin hp
    cases run <;>
      simp_all [LoadedWasmSandbox.call_guest_function, LoadedWasmSandbox.is_poisoned,
        MultiUseSandbox.call]
  · intro l mus snap hin
    simp_all [LoadedWasmSandbox.restore, LoadedWasmSandbox.is_poisoned,
      MultiUseSandbox.restore]

/-- Witness for C1: a healthy sandbox interrupted mid-call returns
`ExecutionCanceledByHost` and is poisoned; calling the poisoned result
returns `PoisonedSandbox`; restoring clears the poison. -/
theorem C1_witness :
    ((LoadedWasmSandbox.call_guest_function
        { inner := some { mem := 5, poisoned := false }, runtime_snapshot := some 0 }
        GuestRun.interrupted).1
      = .error (abnormalError GuestRun.interrupted) ∧
     abnormalError GuestRun.interrupted ≠ HlError.PoisonedSandbox ∧
     (LoadedWasmSandbox.call_guest_function
        { inner := some { mem := 5, poisoned := false }, runtime_snapshot := some 0 }
        GuestRun.interrupted).2.is_poisoned = .ok true) ∧
    ((LoadedWasmSandbox.call_guest_function
        { inner := some { mem := 5, poisoned := true }, runtime_snapshot := some 0 }
        (GuestRun.normal (ReturnValue.int 3) 9)).1 = .error HlError.PoisonedSandbox ∧
     (LoadedWasmSandbox.call_guest_function
        { inner := some { mem := 5, poisoned := true }, runtime_snapshot := some 0 }
        (GuestRun.normal (ReturnValue.int 3) 9)).2.is_poisoned = .ok true) ∧
    ((LoadedWasmSandbox.restore
        { inner := some { mem := 5, poisoned := true }, runtime_snapshot := some 0 }
        0).2.is_poisoned = .ok false) :=
  ⟨C1_first_error_verbatim_then_poisoned.1
      { inner := some { mem := 5, poisoned := false }, runtime_snapshot := some 0 }
      { mem := 5, poisoned := false } GuestRun.interrupted rfl rfl rfl,
   C1_first_error_verbatim_then_poisoned.2.1
      { inner := some { mem := 5, poisoned := true }, runtime_snapshot := some 0 }
      { mem := 5, poisoned := true } (GuestRun.normal (ReturnValue.int 3) 9) rfl rfl,
   C1_first_error_verbatim_then_poisoned.2.2
      { inner := some { mem := 5, poisoned := true }, runtime_snapshot := some 0 }
      { mem := 5, poisoned := true } 0 rfl⟩

/-- C2 (counterexample): unloading a poisoned loaded sandbox whose live
memory (7) differs from the retained snapshot (3) yields a `WasmSandbox`
whose inner sandbox is unchanged — still poisoned, memory not restored —
with only the `needs_restore` flag set: the Loaded-to-Runtime transition
itself performs no restore and clears no poison. -/
theorem C2_counterexample :
    LoadedWasmSandbox.unload_module
        { inner := some { mem := 7, poisoned := true }, runtime_snapshot := some 3 }
      = .ok { inner := some { mem := 7, poisoned := true }
              snapshot := some 3
              needs_restore := true } ∧
    ({ mem := 7, poisoned := true } : MultiUseSandbox).poisoned = true ∧
    (7 : Nat) ≠ 3 := by
  refine ⟨rfl, rfl, by decide⟩

/-- C2 (amended): `unload_module` always succeeds regardless of
poisoning, but defers the restore: it returns a `WasmSandbox` with
`needs_restore` set and the inner sandbox untouched; the retained runtime
snapshot is restored — clearing the poisoned flag — by the next
`load_module` (or `load_module_by_mapping`), after which loading any
module whose guest load call returns 0 succeeds. -/
theorem C2_unload_always_succeeds_restore_deferred :
    (∀ (l : LoadedWasmSandbox) (mus : MultiUseSandbox) (snap : Snapshot),
      l.inner = some mus → l.runtime_snapshot = some snap →
      l.unload_module = .ok (WasmSandbox.new_from_loaded mus snap)) ∧
    (∀ (mus : MultiUseSandbox) (snap : Snapshot),
      (WasmSandbox.new_from_loaded mus snap).needs_restore = true ∧
      (WasmSandbox.new_from_loaded mus snap).restore_if_needed
        = { inner := some { mem := snap, poisoned := false }
            snapshot := some snap
            needs_restore := false }) ∧
    (∀ (mus : MultiUseSandbox) (snap : Snapshot) (m : Nat),
      (WasmSandbox.new_from_loaded mus snap).load_module false
          (GuestRun.normal (ReturnValue.int 0) m)
        = (.ok { inner := some { mem := m, poisoned := false }
                 runtime_snapshot := some snap },
           [("LoadWasmModule", { mem := snap, poisoned := false })])) := by
  refine ⟨?_, ?_, ?_⟩
  · intro l mus snap hin hsnap
    simp [LoadedWasmSandbox.unload_module, hin, hsnap]
  · intro mus snap
    exact ⟨rfl, rfl⟩
  · intro mus snap m
    rfl

/-- Witness for C2: a poisoned, dirty (memory 7) loaded sandbox unloads
successfully, the pending restore rewrites memory to the snapshot 3 and
clears the poison, and a subsequent load of a module returning 0
succeeds. -/
theorem C2_witness :
    LoadedWasmSandbox.unload_module
        { inner := some { mem := 7, poisoned := true }, runtime_snapshot := some 3 }
      = .ok (WasmSandbox.new_from_loaded { mem := 7, poisoned := true } 3) ∧
    (WasmSandbox.new_from_loaded { mem := 7, poisoned := true } 3).restore_if_needed
      = { inner := some { mem := 3, poisoned := false }
          snapshot := some 3
          needs_restore := false } ∧
    (WasmSandbox.new_from_loaded { mem := 7, poisoned := true } 3).load_module false
        (GuestRun.normal (ReturnValue.int 0) 11)
      = (.ok { inner := some { mem := 11, poisoned := false }
               runtime_snapshot := some 3 },
         [("LoadWasmModule", { mem := 3, poisoned := false })]) :=
  ⟨C2_unload_always_succeeds_restore_deferred.1
      { inner := some { mem := 7, poisoned := true }, runtime_snapshot := some 3 }
      { mem := 7, poisoned := true } 3 rfl rfl,
   (C2_unload_always_succeeds_restore_deferred.2.1 { mem := 7, poisoned := true } 3).2,
   C2_unload_always_succeeds_restore_deferred.2.2 { mem := 7, poisoned := true } 3 11⟩

/-- C10: on a `WasmSandbox` left by `unload_module` (so `needs_restore`
is set), `load_module` and `load_module_by_mapping` issue their guest
load call on the restored sandbox (`mus.restore snap`: memory reset to
the retained snapshot, poison cleared) on both the mapped and the copy
path, while `load_module_from_buffer` issues `LoadWasmModule` on the
original, unrestored sandbox `mus`. -/
theorem C10_load_module_from_buffer_skips_restore
    (mus : MultiUseSandbox) (snap : Snapshot) (run : GuestRun) :
    ((WasmSandbox.mk (some mus) (some snap) true).load_module true run).2
        = [("LoadWasmModulePhys", mus.restore snap)] ∧
    ((WasmSandbox.mk (some mus) (some snap) true).load_module false run).2
        = [("LoadWasmModule", mus.restore snap)] ∧
    ((WasmSandbox.mk (some mus) (some snap) true).load_module_by_mapping true run).2
        = [("LoadWasmModulePhys", mus.restore snap)] ∧
    ((WasmSandbox.mk (some mus) (some snap) true).load_module_by_mapping false run).2
        = [("LoadWasmModule", mus.restore snap)] ∧
    ((WasmSandbox.mk (some mus) (some snap) true).load_module_from_buffer run).2
        = [("LoadWasmModule", mus)] := by
  have hphys : ∀ (inner : MultiUseSandbox) (s : WasmSandbox),
      ((let (r, inner') := inner.call run
        match r with
        | .error e => ((.error e : Except HlError LoadedWasmSandbox),
                       [("LoadWasmModulePhys", inner)])
        | .ok _ => (({ s with inner := some inner' }).finalize_module_load,
                    [("LoadWasmModulePhys", inner)])).2)
        = [("LoadWasmModulePhys", inner)] := by
    intro inner s
    rcases hc : inner.call run with ⟨r, i⟩
    cases r <;> rfl
  have hcopy : ∀ (inner : MultiUseSandbox) (s : WasmSandbox),
      ((match load_wasm_module_from_bytes inner run with
        | (.error e, log) => ((.error e : Except HlError LoadedWasmSandbox), log)
        | (.ok inner', log) => (({ s with inner := some inner' }).finalize_module_load, log)).2)
        = [("LoadWasmModule", inner)] := by
    intro inner s
    have hb : (load_wasm_module_from_bytes inner run).2 = [("LoadWasmModule", inner)] := rfl
    rcases hlb : load_wasm_module_from_bytes inner run with ⟨x, log⟩
    rw [hlb] at hb
    cases x <;> simpa using hb
  exact ⟨hphys (mus.restore snap) _, hcopy (mus.restore snap) _,
         hphys (mus.restore snap) _, hcopy (mus.restore snap) _, hcopy mus _⟩

/-! ## Helper lemmas about the marshalling state (used by the C8 theorem) -/

theorem noFreeEv_append {a b : List MemEvent} (ha : noFreeEv a) (hb : noFreeEv b) :
    noFreeEv (a ++ b) := by
  intro x hx
  rcases List.mem_append.mp hx with h | h
  · exact ha x h
  · exact hb x h

/-- Parameter marshalling touches `malloc`/`write` only: it preserves the
allocation list and appends no `free` event. -/
theorem hl_param_to_val_frame (g : GuestExports) (st : MarshalSt) (p : ParameterValue)
    (v : Val) (st' : MarshalSt) (h : hl_param_to_val g st p = .ok (v, st')) :
    st'.allocs = st.allocs ∧ ∃ d, st'.events = st.events ++ d ∧ noFreeEv d := by
  cases p with
  | string s =>
    by_cases h0 : 0 ∈ s
    · simp [hl_param_to_val, h0] at h
    · simp only [hl_param_to_val, if_neg h0, mallocCall, writeCall, Except.ok.injEq,
        Prod.mk.injEq] at h
      rcases h with ⟨_, h2⟩
      subst h2
      refine ⟨rfl, [MemEvent.mallocEv (s.length + 1) (g.mallocRet st.nMallocs (s.length + 1)),
        MemEvent.writeEv (g.mallocRet st.nMallocs (s.length + 1)) (s ++ [0])], by simp, ?_⟩
      intro a ha
      simp at ha
  | vecBytes b =>
    simp only [hl_param_to_val, mallocCall, writeCall, Except.ok.injEq, Prod.mk.injEq] at h
    rcases h with ⟨_, h2⟩
    subst h2
    refine ⟨rfl, [MemEvent.mallocEv b.length (g.mallocRet st.nMallocs b.length),
      MemEvent.writeEv (g.mallocRet st.nMallocs b.length) b], by simp, ?_⟩
    intro a ha
    simp at ha
  | int i =>
    simp only [hl_param_to_val, Except.ok.injEq, Prod.mk.injEq] at h
    rcases h with ⟨_, h2⟩
    subst h2
    exact ⟨rfl, [], by simp, by intro a ha; cases ha⟩
  | uint u =>
    simp only [hl_param_to_val, Except.ok.injEq, Prod.mk.injEq] at h
    rcases h with ⟨_, h2⟩
    subst h2
    exact ⟨rfl, [], by simp, by intro a ha; cases ha⟩
  | long l =>
    simp only [hl_param_to_val, Except.ok.injEq, Prod.mk.injEq] at h
    rcases h with ⟨_, h2⟩
    subst h2
    exact ⟨rfl, [], by simp, by intro a ha; cases ha⟩
  | ulong u =>
    simp only [hl_param_to_val, Except.ok.injEq, Prod.mk.injEq] at h
    rcases h with ⟨_, h2⟩
    subst h2
    exact ⟨rfl, [], by simp, by intro a ha; cases ha⟩
  | bool b =>
    simp only [hl_param_to_val, Except.ok.injEq, Prod.mk.injEq] at h
    rcases h with ⟨_, h2⟩
    subst h2
    exact ⟨rfl, [], by simp, by intro a ha; cases ha⟩
  | float f =>
    simp only [hl_param_to_val, Except.ok.injEq, Prod.mk.injEq] at h
    rcases h with ⟨_, h2⟩
    subst h2
    exact ⟨rfl, [], by simp, by intro a ha; cases ha⟩
  | double f =>
    simp only [hl_param_to_val, Except.ok.injEq, Prod.mk.injEq] at h
    rcases h with ⟨_, h2⟩
    subst h2
    exact ⟨rfl, [], by simp, by intro a ha; cases ha⟩

/-- The parameter loop of `guest_dispatch_function` preserves the
allocation list and appends no `free` event. -/
theorem hl_params_to_vals_frame (g : GuestExports) :
    ∀ (ps : List ParameterValue) (st : MarshalSt) (vs : List Val) (st' : MarshalSt),
    hl_params_to_vals g st ps = .ok (vs, st') →
    st'.allocs = st.allocs ∧ ∃ d, st'.events = st.events ++ d ∧ noFreeEv d := by
  intro ps
  induction ps with
  | nil =>
    intro st vs st' h
    simp only [hl_params_to_vals, Except.ok.injEq, Prod.mk.injEq] at h
    rcases h with ⟨_, h2⟩
    subst h2
    exact ⟨rfl, [], by simp, by intro a ha; cases ha⟩
  | cons p rest ih =>
    intro st vs st' h
    simp only [hl_params_to_vals] at h
    cases h1 : hl_param_to_val g st p with
    | error e => rw [h1] at h; cases h
    | ok out =>
      rcases out with ⟨v, st1⟩
      rw [h1] at h
      dsimp only at h
      cases h2 : hl_params_to_vals g st1 rest with
      | error e => rw [h2] at h; cases h
      | ok out2 =>
        rcases out2 with ⟨vs2, st2⟩
        rw [h2] at h
        dsimp only at h
        simp only [Except.ok.injEq, Prod.mk.injEq] at h
        rcases h with ⟨_, hst⟩
        subst hst
        rcases hl_param_to_val_frame g st p v st1 h1 with ⟨ha1, d1, he1, hf1⟩
        rcases ih st1 vs2 st2 h2 with ⟨ha2, d2, he2, hf2⟩
        refine ⟨ha2.trans ha1, d1 ++ d2, ?_, noFreeEv_append hf1 hf2⟩
        rw [he2, he1, List.append_assoc]

/-- Result decoding appends to the allocation list exactly the pointers
of a String/VecBytes return, and appends no `free` event. -/
theorem val_to_hl_result_frame (g : GuestExports) (fuel : Nat) (st : MarshalSt)
    (rt : ReturnType) (rvs : List Val) (res : FbResult) (st' : MarshalSt)
    (h : val_to_hl_result g fuel st rt rvs = .ok (res, st')) :
    st'.allocs = st.allocs ++ returnPtrs rt rvs ∧
    ∃ d, st'.events = st.events ++ d ∧ noFreeEv d := by
  by_cases hv : rt = .void
  · subst hv
    rw [val_to_hl_result, if_pos rfl] at h
    simp only [Except.ok.injEq, Prod.mk.injEq] at h
    rcases h with ⟨_, h2⟩
    subst h2
    exact ⟨by simp [returnPtrs], [], by simp, by intro a ha; cases ha⟩
  · rw [val_to_hl_result, if_neg hv] at h
    cases rvs with
    | nil => cases h
    | cons v tail =>
      simp only [List.head?_cons] at h
      cases rt with
      | void => exact absurd rfl hv
      | int =>
        cases v <;> cases h
        exact ⟨by simp [returnPtrs], [], by simp, by intro a ha; cases ha⟩
      | uint =>
        cases v <;> cases h
        exact ⟨by simp [returnPtrs], [], by simp, by intro a ha; cases ha⟩
      | long =>
        cases v <;> cases h
        exact ⟨by simp [returnPtrs], [], by simp, by intro a ha; cases ha⟩
      | ulong =>
        cases v <;> cases h
        exact ⟨by simp [returnPtrs], [], by simp, by intro a ha; cases ha⟩
      | bool => cases v <;> cases h
      | float =>
        cases v <;> cases h
        exact ⟨by simp [returnPtrs], [], by simp, by intro a ha; cases ha⟩
      | double =>
        cases v <;> cases h
        exact ⟨by simp [returnPtrs], [], by simp, by intro a ha; cases ha⟩
      | string =>
        cases v with
        | I32 p =>
          dsimp only at h
          cases hc : read_cstr g fuel p with
          | none => rw [hc] at h; cases h
          | some s =>
            rw [hc] at h
            dsimp only at h
            cases h
            exact ⟨by simp [track_return_value_allocation, returnPtrs], [],
              by simp [track_return_value_allocation], by intro a ha; cases ha⟩
        | I64 i => cases h
        | F32 b => cases h
        | F64 b => cases h
      | vecBytes =>
        cases v with
        | I32 p =>
          dsimp only at h
          cases h
          refine ⟨by simp [track_return_value_allocation, readCall, returnPtrs], ?_⟩
          refine ⟨[MemEvent.readEv p 4,
            MemEvent.readEv (p + 4)
              (usizeOfI32 (i32FromLEBytes (readBytes g p 4)))], ?_, ?_⟩
          · simp [track_return_value_allocation, readCall]
          · intro a ha
            simp at ha
        | I64 i => cases h
        | F32 b => cases h
        | F64 b => cases h

/-- The fold over the allocation list inside
`free_return_value_allocations` only appends the `free` events. -/
theorem foldl_freeCall_eq (g : GuestExports) :
    ∀ (l : List Int) (st : MarshalSt),
    l.foldl (freeCall g) st = { st with events := st.events ++ l.map MemEvent.freeEv } := by
  intro l
  induction l with
  | nil => intro st; simp
  | cons a rest ih =>
    intro st
    rw [List.foldl_cons, ih]
    simp [freeCall]

/-- Draining the allocation list frees every tracked address, in order,
and empties the list. -/
theorem free_return_value_allocations_eq (g : GuestExports) (st : MarshalSt) :
    free_return_value_allocations g st
      = { nMallocs := st.nMallocs
          events := st.events ++ st.allocs.map MemEvent.freeEv
          allocs := [] } := by
  unfold free_return_value_allocations
  rw [foldl_freeCall_eq]

/-- C8: result decoding records in `RETURN_VALUE_ALLOCATIONS` exactly the
pointer of each String/VecBytes guest return, and every successful
`guest_dispatch_function` entry first frees the entire previously
recorded batch (its events are the frees of the old list, in order,
followed only by non-free events) and leaves the list holding exactly the
pointers of the new call's return value. -/
theorem C8_return_allocations_freed_on_entry :
    (∀ (g : GuestExports) (fuel : Nat) (st : MarshalSt) (rt : ReturnType)
       (rvs : List Val) (res : FbResult) (st' : MarshalSt),
      val_to_hl_result g fuel st rt rvs = .ok (res, st') →
      st'.allocs = st.allocs ++ returnPtrs rt rvs) ∧
    (∀ (g : GuestExports) (fuel : Nat)
       (wc : String → List Val → Except String (List Val))
       (fc : FunctionCall) (st : MarshalSt) (res : FbResult) (st' : MarshalSt),
      guest_dispatch_function g fuel wc fc st = .ok (res, st') →
      (∃ rest, st'.events = st.events ++ st.allocs.map MemEvent.freeEv ++ rest ∧
        noFreeEv rest) ∧
      (∃ vs rs, wc fc.function_name vs = .ok rs ∧
        st'.allocs = returnPtrs fc.expected_return_type rs)) := by
  constructor
  · intro g fuel st rt rvs res st' h
    exact (val_to_hl_result_frame g fuel st rt rvs res st' h).1
  · intro g fuel wc fc st res st' h
    unfold guest_dispatch_function at h
    rw [free_return_value_allocations_eq] at h
    cases h1 : hl_params_to_vals g
        { nMallocs := st.nMallocs
          events := st.events ++ st.allocs.map MemEvent.freeEv
          allocs := [] } fc.parameters with
    | error e => rw [h1] at h; cases h
    | ok out =>
      rcases out with ⟨vs, st2⟩
      rw [h1] at h
      dsimp only at h
      cases h2 : wc fc.function_name vs with
      | error e => rw [h2] at h; cases h
      | ok rs =>
        rw [h2] at h
        dsimp only at h
        rcases hl_params_to_vals_frame g fc.parameters _ vs st2 h1 with ⟨ha1, d1, he1, hf1⟩
        rcases val_to_hl_result_frame g fuel st2 fc.expected_return_type rs res st' h
          with ⟨ha2, d2, he2, hf2⟩
        constructor
        · refine ⟨d1 ++ d2, ?_, noFreeEv_append hf1 hf2⟩
          rw [he2, he1]
          simp [List.append_assoc]
        · refine ⟨vs, rs, h2, ?_⟩
          rw [ha2, ha1]
          simp

/-- Witness for C8: a dispatch of a no-argument call returning i32 7 on a
state with one previously tracked allocation (address 5) frees it first
and leaves the list empty; and decoding a String return at pointer 9
records that pointer. -/
theorem C8_witness :
    ((∃ rest,
        ([MemEvent.freeEv 5] : List MemEvent)
          = [] ++ [(5 : Int)].map MemEvent.freeEv ++ rest ∧ noFreeEv rest) ∧
      (∃ vs rs,
        (fun (_ : String) (_ : List Val) =>
          (.ok [Val.I32 7] : Except String (List Val))) "f" vs = .ok rs ∧
        ([] : List Int) = returnPtrs ReturnType.int rs)) ∧
    ([(9 : Int)] : List Int) = [] ++ returnPtrs ReturnType.string [Val.I32 9] := by
  constructor
  · exact (C8_return_allocations_freed_on_entry.2
      { byteAt := fun _ => 0, mallocRet := fun _ _ => 0 } 1
      (fun _ _ => .ok [Val.I32 7])
      { function_name := "f", parameters := [], expected_return_type := ReturnType.int }
      { nMallocs := 0, events := [], allocs := [5] }
      (FbResult.int 7)
      { nMallocs := 0, events := [MemEvent.freeEv 5], allocs := [] }
      rfl)
  · exact (C8_return_allocations_freed_on_entry.1
      { byteAt := fun _ => 0, mallocRet := fun _ _ => 0 } 1
      { nMallocs := 0, events := [], allocs := [] }
      ReturnType.string [Val.I32 9] (FbResult.str [])
      { nMallocs := 0, events := [], allocs := [9] }
      rfl)

end HyperlightWasm
